import Mathlib

/-
Verification development for `oled_lhm.py` (Apex OLED System Monitor).

The Python module is embedded shallowly:

* Python floats are modelled as exact rationals (`ℚ`).  The numeric strings
  the program parses are plain decimal literals, whose parse results are
  exact rationals; equalities between parse pipelines are unaffected by
  IEEE rounding because equal input strings parse to equal values.
* Python code that can raise is modelled in `PyResult` (`ok` / `exn`).
* Network and file-system effects are modelled by an explicit environment
  (`Env`): the contents of the candidate coreProps files and the response
  (status code, or an exception) the control API returns for a POST to a
  given base URL and path.  Module-level mutable globals
  (`_current_base`, `_last_base_read`, `_last_rebind`, `_counter`)
  become fields of an explicit state record (`GSState`).
* Telemetry documents are JSON trees of null / integer / string leaves and
  array / object branches, mirroring `json.loads` output.  (Real Python
  dicts have unique keys; objects with duplicate keys are not produced by
  `json.loads`.)  String-processing boundary functions of the Python
  standard library (`str.lower`, `str.strip`, `repr` printability) are
  modelled exactly on ASCII, identity on other code points; they are only
  consulted by the program through label equality and unit-marker
  containment checks for ASCII label/marker constants.
-/

/-! ## Python value-or-exception results -/

/-- Result of running a piece of Python code: a value, or a raised exception. -/
inductive PyResult (α : Type) where
  | ok (val : α)
  | exn
deriving DecidableEq, Repr

/-- Sequencing of Python evaluation: an exception aborts the continuation. -/
def pyBind {α β : Type} (r : PyResult α) (f : α → PyResult β) : PyResult β :=
  match r with
  | .ok a => f a
  | .exn => .exn

@[simp] theorem pyBind_ok {α β : Type} (a : α) (f : α → PyResult β) :
    pyBind (.ok a) f = f a := rfl

@[simp] theorem pyBind_exn {α β : Type} (f : α → PyResult β) :
    pyBind .exn f = .exn := rfl

/-- A Python `for` loop threading a state, where the body may raise. -/
def foldPy {σ α : Type} (f : σ → α → PyResult σ) : σ → List α → PyResult σ
  | s, [] => .ok s
  | s, x :: xs => pyBind (f s x) (fun s' => foldPy f s' xs)

@[simp] theorem foldPy_nil {σ α : Type} (f : σ → α → PyResult σ) (s : σ) :
    foldPy f s [] = .ok s := rfl

@[simp] theorem foldPy_cons {σ α : Type} (f : σ → α → PyResult σ) (s : σ)
    (x : α) (xs : List α) :
    foldPy f s (x :: xs) = pyBind (f s x) (fun s' => foldPy f s' xs) := rfl

/-! ## Python string primitives (ASCII-exact) -/

/-- `str.lower` on one character: exact for ASCII, identity elsewhere. -/
def lowerChar (c : Char) : Char :=
  if 'A' ≤ c ∧ c ≤ 'Z' then Char.ofNat (c.toNat + 32) else c

/-- `str.lower`. -/
def pyLower (l : List Char) : List Char := l.map lowerChar

/-- Whitespace stripped by `str.strip` (ASCII whitespace). -/
def isSpaceChar (c : Char) : Bool :=
  c == ' ' || c == '\t' || c == '\n' || c == '\x0d' || c == '\x0b' || c == '\x0c'

/-- `str.strip`: drop leading and trailing whitespace. -/
def pyStrip (l : List Char) : List Char :=
  ((l.dropWhile isSpaceChar).reverse.dropWhile isSpaceChar).reverse

/-- `pat in s` on Python strings: `pat` occurs as a contiguous substring. -/
def isPrefixList : List Char → List Char → Bool
  | [], _ => true
  | _ :: _, [] => false
  | a :: as, b :: bs => a == b && isPrefixList as bs

/-- Substring containment (the Python `in` operator on strings). -/
def containsSub (pat : List Char) : List Char → Bool
  | [] => pat.isEmpty
  | c :: rest => isPrefixList pat (c :: rest) || containsSub pat rest

/-- Decimal digits of a natural number, most significant first. -/
def natDigits (n : Nat) : List Char := Nat.toDigits 10 n

/-- `str(i)` for a Python `int`. -/
def intStr (i : Int) : List Char :=
  if i < 0 then '-' :: natDigits i.natAbs else natDigits i.natAbs

/-! ## Python `float()` on extracted numeric strings

`_to_float_best` feeds `float()` a string built only of ASCII digits and
the characters `.`/`-` (commas are replaced by dots first).  On that
character set `float()` accepts exactly an optional leading minus followed
by a digit string with at most one dot (at least one digit), and raises
`ValueError` otherwise; accepted literals denote exact decimal values,
modelled here as rationals. -/

/-- Value of a string of ASCII decimal digits. -/
def digitsToNat (l : List Char) : Nat :=
  l.foldl (fun a c => 10 * a + (c.toNat - 48)) 0

/-- Unsigned decimal literal: `digits`, `digits.digits`, `.digits`, `digits.`;
the result is returned as numerator over a power-of-ten denominator (the
exact value of the literal, `ip.frac = (ip·10^k + frac) / 10^k`). -/
def parseUnsignedFloat (l : List Char) : Option (ℤ × ℕ) :=
  let ip := l.takeWhile Char.isDigit
  let rest := l.drop ip.length
  match rest with
  | [] => if ip.isEmpty then none else some (digitsToNat ip, 1)
  | '.' :: frac =>
      if frac.all Char.isDigit && !(ip.isEmpty && frac.isEmpty) then
        some (digitsToNat ip * 10 ^ frac.length + digitsToNat frac, 10 ^ frac.length)
      else none
  | _ => none

/-- `float(s)` for strings over digits, `.`, `-`: `none` means `ValueError`. -/
def parsePyFloat (l : List Char) : Option ℚ :=
  match l with
  | '-' :: rest => (parseUnsignedFloat rest).map (fun p => mkRat (-p.1) p.2)
  | _ => (parseUnsignedFloat l).map (fun p => mkRat p.1 p.2)

/-! ## Telemetry documents (`json.loads` output) -/

mutual
/-- A JSON document node.  Leaves carry `null`, integer or string scalars;
the model's document domain omits float and boolean leaves (the telemetry
tree the program reads carries its sensor values as strings). -/
inductive JSON where
  | null
  | int (i : Int)
  | str (s : String)
  | arr (items : JList)
  | obj (fields : JFields)

/-- A JSON array body. -/
inductive JList where
  | nil
  | cons (hd : JSON) (tl : JList)

/-- A JSON object body: keys in document order (unique in real documents). -/
inductive JFields where
  | nil
  | cons (key : String) (val : JSON) (tl : JFields)
end

/-- Build a JSON array body from a Lean list. -/
def JList.ofList : List JSON → JList
  | [] => .nil
  | x :: xs => .cons x (ofList xs)

/-- Build a JSON object body from a Lean association list. -/
def JFields.ofList : List (String × JSON) → JFields
  | [] => .nil
  | (k, v) :: rest => .cons k v (ofList rest)

/-- JSON array literal. -/
def jArr (l : List JSON) : JSON := .arr (JList.ofList l)

/-- JSON object literal. -/
def jObj (l : List (String × JSON)) : JSON := .obj (JFields.ofList l)

/-- JSON string literal. -/
def jStr (s : String) : JSON := .str s

/-- Printable-ASCII test used by the `repr` model. -/
def asciiPrintable (c : Char) : Bool := 32 ≤ c.toNat && c.toNat ≤ 126

/-- Lower-case hexadecimal digit. -/
def hexDigitChar (n : Nat) : Char :=
  if n < 10 then Char.ofNat (48 + n) else Char.ofNat (87 + n)

/-- `\xhh` / `\uhhhh` / `\Uhhhhhhhh` escape for a non-printable character. -/
def hexEscape (c : Char) : List Char :=
  let n := c.toNat
  if n < 256 then ['\\', 'x', hexDigitChar (n / 16 % 16), hexDigitChar (n % 16)]
  else if n < 65536 then
    ['\\', 'u', hexDigitChar (n / 4096 % 16), hexDigitChar (n / 256 % 16),
     hexDigitChar (n / 16 % 16), hexDigitChar (n % 16)]
  else
    ['\\', 'U', hexDigitChar (n / 16 ^ 7 % 16), hexDigitChar (n / 16 ^ 6 % 16),
     hexDigitChar (n / 16 ^ 5 % 16), hexDigitChar (n / 16 ^ 4 % 16),
     hexDigitChar (n / 4096 % 16), hexDigitChar (n / 256 % 16),
     hexDigitChar (n / 16 % 16), hexDigitChar (n % 16)]

/-- One character of `repr` of a Python string, given the chosen quote
(printability modelled on ASCII). -/
def reprStrChar (quote c : Char) : List Char :=
  if c == '\\' then ['\\', '\\']
  else if c == quote then ['\\', quote]
  else if c == '\n' then ['\\', 'n']
  else if c == '\x0d' then ['\\', 'r']
  else if c == '\t' then ['\\', 't']
  else if asciiPrintable c then [c]
  else hexEscape c

/-- `repr` of a Python string: single quotes unless the text holds a single
quote and no double quote. -/
def pyReprOfStr (s : List Char) : List Char :=
  let q := if s.contains (Char.ofNat 39) && !(s.contains (Char.ofNat 34))
           then Char.ofNat 34 else Char.ofNat 39
  q :: s.flatMap (reprStrChar q) ++ [q]

/-- Interpose a separator between pieces. -/
def sepJoin (sep : List Char) : List (List Char) → List Char
  | [] => []
  | [x] => x
  | x :: y :: rest => x ++ sep ++ sepJoin sep (y :: rest)

mutual
/-- `repr` of a value decoded from JSON. -/
def pyRepr : JSON → List Char
  | .null => ['N', 'o', 'n', 'e']
  | .int i => intStr i
  | .str s => pyReprOfStr s.toList
  | .arr xs => '[' :: sepJoin [',', ' '] (pyReprList xs) ++ [']']
  | .obj kvs => Char.ofNat 123 :: sepJoin [',', ' '] (pyReprFields kvs) ++ [Char.ofNat 125]

/-- `repr` of each element of a decoded JSON array. -/
def pyReprList : JList → List (List Char)
  | .nil => []
  | .cons x xs => pyRepr x :: pyReprList xs

/-- `'key': value` pieces of `repr` of a decoded JSON object. -/
def pyReprFields : JFields → List (List Char)
  | .nil => []
  | .cons k v rest => (pyReprOfStr k.toList ++ [':', ' '] ++ pyRepr v) :: pyReprFields rest
end

/-- `str(x)` for a value decoded from JSON: identity on strings, decimal on
ints, `repr` on containers and `None`. -/
def pyStr : JSON → List Char
  | .str s => s.toList
  | v => pyRepr v

/-! ## `_to_float_best` and `walk_json` -/

/-- Characters kept by the numeric scan: `ch.isdigit() or ch in ".-,"`
(digits modelled as ASCII digits). -/
def numChar (c : Char) : Bool := c.isDigit || c == '.' || c == '-' || c == ','

/-- The scanning loop of `_to_float_best`: skip until the first numeric
character, then keep numeric characters until the first other character. -/
def extractNum (l : List Char) : List Char :=
  (l.dropWhile (fun c => !numChar c)).takeWhile numChar

/-- `num.replace(",", ".")`. -/
def replaceCommaDot (l : List Char) : List Char :=
  l.map (fun c => if c == ',' then '.' else c)

/-- The string half of `_to_float_best`: strip, scan, return `None` on an
empty scan, replace commas and call `float()` (which may raise). -/
def toFloatScan (s : List Char) : PyResult (Option ℚ) :=
  let t := pyStrip s
  let num := extractNum t
  if num.isEmpty then .ok none
  else
    match parsePyFloat (replaceCommaDot num) with
    | some q => .ok (some q)
    | none => .exn

/-- `_to_float_best(val)`: `None` and numbers returned directly, any other
value stringified, stripped and scanned; an empty scan yields `None`, and
`float()` on the scanned text may raise (`.exn`). -/
def to_float_best : JSON → PyResult (Option ℚ)
  | .null => .ok none
  | .int i => .ok (some (mkRat i 1))
  | v => toFloatScan (pyStr v)

mutual
/-- `walk_json`: yield every mapping node, depth first, parents before
children, in document order.  Arrays are traversed but not yielded. -/
def walk_json : JSON → List JSON
  | .obj kvs => .obj kvs :: walkFields kvs
  | .arr xs => walkList xs
  | _ => []

/-- Traversal of an array body. -/
def walkList : JList → List JSON
  | .nil => []
  | .cons x xs => walk_json x ++ walkList xs

/-- Traversal of the values of an object body, in document order. -/
def walkFields : JFields → List JSON
  | .nil => []
  | .cons _ v rest => walk_json v ++ walkFields rest
end

/-! ## `lhm_read_metrics` -/

/-- Lookup in an object body (keys are unique in decoded documents). -/
def fieldsGet : JFields → String → Option JSON
  | .nil, _ => none
  | .cons k v rest, key => if k == key then some v else fieldsGet rest key

/-- `n.get(key)` as observed by the `is None` test: a JSON `null` value and
a missing key are both Python `None`. -/
def fieldsGetOpt (n : JSON) (key : String) : Option JSON :=
  match n with
  | .obj kvs =>
      match fieldsGet kvs key with
      | some .null => none
      | some v => some v
      | none => none
  | _ => none

/-- Recognized label for the CPU temperature node. -/
def lblCoreTctl : List Char := "core (tctl/tdie)".toList

/-- Recognized label for the CPU load node. -/
def lblCpuTotal : List Char := "cpu total".toList

/-- Recognized label for the CPU clock node. -/
def lblCoresAvg : List Char := "cores (average)".toList

/-- Recognized label for GPU core temperature and GPU core load nodes. -/
def lblGpuCore : List Char := "gpu core".toList

/-- Recognized label for the GPU hot-spot temperature node. -/
def lblHotSpot : List Char := "gpu hot spot".toList

/-- Recognized label for the D3D 3D load node. -/
def lblD3D : List Char := "d3d 3d".toList

/-- Recognized label for the VRAM-used node. -/
def lblMemUsed : List Char := "gpu memory used".toList

/-- Recognized label for the VRAM-total node. -/
def lblMemTotal : List Char := "gpu memory total".toList

/-- Celsius unit marker (`"c" in sval`). -/
def mCel : List Char := "c".toList

/-- Percent unit marker (`"%" in sval`). -/
def mPct : List Char := "%".toList

/-- Megahertz unit marker (`"mhz" in sval`). -/
def mMhz : List Char := "mhz".toList

/-- Megabyte unit marker (`"mb" in sval`). -/
def mMb : List Char := "mb".toList

/-- One recognition test of the extraction loop:
`lname == label and marker in sval` where `lname`/`sval` are the stripped,
lower-cased texts of `Text`/`Value` (the source computes `lname`/`sval`
once per node; recomputing the pure expressions per test is identical). -/
def nodeGuard (lbl mark : List Char) (text val : JSON) : Bool :=
  pyLower (pyStrip (pyStr text)) == lbl
    && containsSub mark (pyLower (pyStrip (pyStr val)))

/-- One `if X is None and <guard>: X = _to_float_best(val)` statement. -/
def updateField (cur : Option ℚ) (g : Bool) (val : JSON) : PyResult (Option ℚ) :=
  if cur.isNone && g then to_float_best val else .ok cur

/-- The extraction loop restricted to a single accumulator. -/
def fieldStep (lbl mark : List Char) (cur : Option ℚ) (n : JSON) : PyResult (Option ℚ) :=
  match fieldsGetOpt n "Text", fieldsGetOpt n "Value" with
  | some text, some val => updateField cur (nodeGuard lbl mark text val) val
  | _, _ => .ok cur

/-- The local accumulator variables of the extraction loop. -/
structure ScanState where
  cpu_temp : Option ℚ
  cpu_load : Option ℚ
  cpu_clock_mhz : Option ℚ
  gpu_temp : Option ℚ
  gpu_hotspot : Option ℚ
  gpu_core_load : Option ℚ
  d3d_3d : Option ℚ
  vram_used_mb : Option ℚ
  vram_total_mb : Option ℚ
deriving DecidableEq, Repr

/-- All accumulators start as `None`. -/
def initScan : ScanState :=
  ⟨none, none, none, none, none, none, none, none, none⟩

/-- The body of `for n in walk_json(data)`: the nine guarded assignments
of the source, in source order (the source reads `Text`/`Value` and
computes `lname`/`sval` once per node and `continue`s when either is
`None`; each `fieldStep` re-reads the same pure expressions, and when
`Text` or `Value` is `None` every `fieldStep` leaves its accumulator
unchanged, which is exactly the `continue`). -/
def scanNode (st : ScanState) (n : JSON) : PyResult ScanState :=
  pyBind (fieldStep lblCoreTctl mCel st.cpu_temp n) fun cpu_temp =>
  pyBind (fieldStep lblCpuTotal mPct st.cpu_load n) fun cpu_load =>
  pyBind (fieldStep lblCoresAvg mMhz st.cpu_clock_mhz n) fun cpu_clock_mhz =>
  pyBind (fieldStep lblGpuCore mCel st.gpu_temp n) fun gpu_temp =>
  pyBind (fieldStep lblHotSpot mCel st.gpu_hotspot n) fun gpu_hotspot =>
  pyBind (fieldStep lblGpuCore mPct st.gpu_core_load n) fun gpu_core_load =>
  pyBind (fieldStep lblD3D mPct st.d3d_3d n) fun d3d_3d =>
  pyBind (fieldStep lblMemUsed mMb st.vram_used_mb n) fun vram_used_mb =>
  pyBind (fieldStep lblMemTotal mMb st.vram_total_mb n) fun vram_total_mb =>
  .ok ⟨cpu_temp, cpu_load, cpu_clock_mhz, gpu_temp, gpu_hotspot,
       gpu_core_load, d3d_3d, vram_used_mb, vram_total_mb⟩

/-- The dictionary `lhm_read_metrics` returns. -/
structure Metrics where
  cpu_temp : Option ℚ
  cpu_load : Option ℚ
  cpu_clock_mhz : Option ℚ
  gpu_temp : Option ℚ
  gpu_load : Option ℚ
  vram_used_mb : Option ℚ
  vram_total_mb : Option ℚ
deriving DecidableEq, Repr

/-- The all-unknown snapshot returned when the telemetry fetch fails. -/
def noneMetrics : Metrics := ⟨none, none, none, none, none, none, none⟩

/-- Python `a or b` on optional floats: `None` and `0.0` are falsy. -/
def pyOr (a b : Option ℚ) : Option ℚ :=
  match a with
  | none => b
  | some q => if q = 0 then b else some q

/-- The source-selection tail of `lhm_read_metrics`: GPU load from the
configured source with Python-`or` fallback, GPU temperature preferring
core with hot-spot fallback. -/
def finalize (pref : String) (st : ScanState) : Metrics :=
  { cpu_temp := st.cpu_temp
    cpu_load := st.cpu_load
    cpu_clock_mhz := st.cpu_clock_mhz
    gpu_temp := pyOr st.gpu_temp st.gpu_hotspot
    gpu_load :=
      if pyLower pref.toList == "core".toList then pyOr st.gpu_core_load st.d3d_3d
      else pyOr st.d3d_3d st.gpu_core_load
    vram_used_mb := st.vram_used_mb
    vram_total_mb := st.vram_total_mb }

/-- `lhm_read_metrics`, parameterized by the `GPU_LOAD_SOURCE` setting and
by the outcome of the HTTP fetch (`none`: the request, status check or JSON
decode raised, handled by the function's only `try`). -/
def lhm_read_metrics (pref : String) (fetched : Option JSON) : PyResult Metrics :=
  match fetched with
  | none => .ok noneMetrics
  | some data =>
      pyBind (foldPy scanNode initScan (walk_json data)) fun st =>
      .ok (finalize pref st)

/-- First-successful-match scan of a whole document for one label/marker. -/
def scanField (lbl mark : List Char) (doc : JSON) : PyResult (Option ℚ) :=
  foldPy (fieldStep lbl mark) none (walk_json doc)

/-- A node qualifies for a field: its `Text` matches the label and its
`Value` text carries the unit marker. -/
def qualifies (lbl mark : List Char) (n : JSON) : Bool :=
  match fieldsGetOpt n "Text", fieldsGetOpt n "Value" with
  | some text, some val => nodeGuard lbl mark text val
  | _, _ => false

/-- The `Value` of a node (only consulted where a value is present). -/
def valueOf (n : JSON) : JSON := (fieldsGetOpt n "Value").getD .null

/-! ## `progress_bar` -/

/-- `BAR_WIDTH`. -/
def BAR_WIDTH : Nat := 16

/-- `BAR_FILLED`. -/
def BAR_FILLED : Char := '#'

/-- `BAR_EMPTY`. -/
def BAR_EMPTY : Char := '-'

/-- Python `round()` on an exact value: nearest integer, ties to even. -/
def pyRound (q : ℚ) : ℤ :=
  if q - ⌊q⌋ < 1/2 then ⌊q⌋
  else if 1/2 < q - ⌊q⌋ then ⌊q⌋ + 1
  else if 2 ∣ ⌊q⌋ then ⌊q⌋ else ⌊q⌋ + 1

/-- `progress_bar(used, total)`: an 18-character bar. -/
def progress_bar (used total : Option ℚ) : List Char :=
  match used, total with
  | some u, some t =>
      if t ≤ 0 then '[' :: List.replicate BAR_WIDTH BAR_EMPTY ++ [']']
      else
        let frac := max 0 (min 1 (u / t))
        let filled : ℤ := pyRound (frac * (BAR_WIDTH : ℚ))
        let filled : ℤ := max 0 (min (BAR_WIDTH : ℤ) filled)
        '[' :: (List.replicate filled.toNat BAR_FILLED
                ++ List.replicate ((BAR_WIDTH : ℤ) - filled).toNat BAR_EMPTY) ++ [']']
  | _, _ => '[' :: List.replicate BAR_WIDTH BAR_EMPTY ++ [']']

/-! ## GameSense publisher: state, environment, endpoint resolution

The module-level globals become a state record; the file system and the
control API become an environment consulted at the moment of each call.
`rebindTimes` is a ghost field recording the time of every invocation of
the rebind sequence (`try_rebind`), the observable the cooldown claims
speak about; no source behaviour depends on it. -/

/-- `REBIND_COOLDOWN_SECONDS`. -/
def REBIND_COOLDOWN_SECONDS : ℚ := 10

/-- `AUTO_REBIND_ON_FAIL`. -/
def AUTO_REBIND_ON_FAIL : Bool := true

/-- `GPU_LOAD_SOURCE` (the shipped configuration value). -/
def GPU_LOAD_SOURCE : String := "d3d"

/-- `GAME`. -/
def GAME : String := "LHM_OLED"

/-- `CPU_EVENT`. -/
def CPU_EVENT : String := "CPU_PAGE"

/-- `GPU_EVENT`. -/
def GPU_EVENT : String := "GPU_PAGE"

/-- `RAM_EVENT`. -/
def RAM_EVENT : String := "RAM_PAGE"

/-- The module globals `_current_base`, `_last_base_read`, `_last_rebind`,
`_counter`, plus the ghost rebind log. -/
structure GSState where
  currentBase : Option String
  lastBaseRead : ℚ
  lastRebind : ℚ
  counter : Nat
  rebindTimes : List ℚ
deriving DecidableEq, Repr

/-- The world as seen by one call: the clock, the `address` field of each
candidate coreProps file (`none`: missing, unreadable or unparsable file,
or no `address` key), and the control API's response to a POST at a base
URL and path (`none`: the request raised). -/
structure Env where
  now : ℚ
  files : List (Option String)
  status : String → String → Option Nat

/-- Rational subtraction, spelled on numerators and denominators so that
the kernel can evaluate it on literals; `ratSub_eq` below shows it is
exactly `a - b`. -/
def ratSub (a b : ℚ) : ℚ := mkRat (a.num * b.den - b.num * a.den) (a.den * b.den)

/-- `ratSub` is subtraction. -/
theorem ratSub_eq (a b : ℚ) : ratSub a b = a - b := by
  have ha : (a.den : ℚ) ≠ 0 := by exact_mod_cast a.den_nz
  have hb : (b.den : ℚ) ≠ 0 := by exact_mod_cast b.den_nz
  rw [ratSub, Rat.mkRat_eq_div]
  conv_rhs => rw [← Rat.num_div_den a, ← Rat.num_div_den b]
  push_cast
  field_simp
  ring

/-- Python truthiness of the optional base string (`None` and `""` falsy). -/
def truthyBase : Option String → Bool
  | some s => !s.isEmpty
  | none => false

/-- Walk the candidate files in priority order (`if addr:` skips falsy
address values and moves to the next file). -/
def readFirstAddress : List (Option String) → Option String
  | [] => none
  | some a :: rest => if a.isEmpty then readFirstAddress rest
                      else some ("http://" ++ a)
  | none :: rest => readFirstAddress rest

/-- `read_coreprops_address`: first candidate file that yields a truthy
`address`, returned as `http://{address}`. -/
def read_coreprops_address (env : Env) : Option String :=
  readFirstAddress env.files

/-- `is_gamesense_alive`: POST a heartbeat, alive on status 200 or 204,
dead on any exception. -/
def is_gamesense_alive (env : Env) (base : String) : Bool :=
  match env.status base "/game_heartbeat" with
  | some code => code == 200 || code == 204
  | none => false

/-- `get_current_base(force)`: serve from cache when unforced, a truthy
base is cached and the last file read is under 3 seconds old; otherwise
re-read the candidate files, validate liveness, and keep the previous base
when discovery or validation fails. -/
def get_current_base (env : Env) (st : GSState) (force : Bool) :
    Option String × GSState :=
  if !force && truthyBase st.currentBase && decide (ratSub env.now st.lastBaseRead < 3) then
    (st.currentBase, st)
  else
    let base := read_coreprops_address env
    let st1 := { st with lastBaseRead := env.now }
    match base with
    | some b =>
        if is_gamesense_alive env b then (some b, { st1 with currentBase := some b })
        else (st1.currentBase, st1)
    | none => (st1.currentBase, st1)

/-- `gamesense_ok`: `bool(base and is_gamesense_alive(base))`. -/
def gamesense_ok (env : Env) (st : GSState) : Bool × GSState :=
  let r := get_current_base env st false
  match r.1 with
  | some b => (is_gamesense_alive env b, r.2)
  | none => (false, r.2)

/-! ## `safe_post` and the rebind sequence

`safe_post` and `try_rebind` are mutually recursive in the source: a
failing POST inside the rebind sequence can itself trigger a rebind.  The
recursion is bounded in execution because `safe_post` stores
`_last_rebind = now` before calling `try_rebind`, so with a single
per-call clock the nested cooldown test `now - _last_rebind > 10` is
false.  The embedding makes the bound explicit with a fuel parameter;
exhausted fuel skips only that provably-dead branch (see
`safe_postAux_fuel_irrelevant`), and every top-level entry point uses
fuel 1. -/

/-- The body of `safe_post(path, payload)` with the rebind sequence as an
explicit continuation: resolve the base (silent `none` result when falsy),
POST, and on an error status or an exception run the cooldown-gated
rebind; the exception arm forces a fresh base resolution first. -/
def safePostCore (env : Env) (st : GSState) (path : String)
    (rebind : GSState → GSState) : Option Nat × GSState :=
  let r := get_current_base env st false
  let st1 := r.2
  if !truthyBase r.1 then (none, st1)
  else
    match env.status (r.1.getD "") path with
    | some code =>
        if 400 ≤ code ∧ AUTO_REBIND_ON_FAIL = true then
          if REBIND_COOLDOWN_SECONDS < ratSub env.now st1.lastRebind then
            (some code, rebind { st1 with lastRebind := env.now })
          else (some code, st1)
        else (some code, st1)
    | none =>
        if AUTO_REBIND_ON_FAIL = true then
          if REBIND_COOLDOWN_SECONDS < ratSub env.now st1.lastRebind then
            (none, rebind (get_current_base env { st1 with lastRebind := env.now } true).2)
          else (none, st1)
        else (none, st1)

/-- The body of `try_rebind()` over a given POST: `register_game()` then
`bind_all()` (one `/game_metadata` POST and one `/bind_game_event` POST
per page); its `except` arm is dead because the embedded posts never
raise.  Records the invocation time in the ghost log. -/
def tryRebindWith (post : GSState → String → Option Nat × GSState)
    (env : Env) (st : GSState) : GSState :=
  let st0 := { st with rebindTimes := st.rebindTimes ++ [env.now] }
  let st1 := (post st0 "/game_metadata").2
  let st2 := (post st1 "/bind_game_event").2
  let st3 := (post st2 "/bind_game_event").2
  (post st3 "/bind_game_event").2

/-- `safe_post` at a given nesting depth of the rebind recursion.  Depth 0
omits only the rebind branch, which is dead there: it is reached with
`_last_rebind` freshly set to `env.now`, making the cooldown test false
(`safe_postAux_fuel_irrelevant` below). -/
def safe_postAux : Nat → Env → GSState → String → Option Nat × GSState
  | 0, env, st, path => safePostCore env st path (fun s => s)
  | fuel + 1, env, st, path =>
      safePostCore env st path
        (tryRebindWith (fun s p => safe_postAux fuel env s p) env)

/-- `try_rebind()` at a given nesting depth. -/
def try_rebindAux (fuel : Nat) (env : Env) (st : GSState) : GSState :=
  tryRebindWith (fun s p => safe_postAux fuel env s p) env st

/-- `safe_post` as entered from the scheduler: fuel 1. -/
def safe_post (env : Env) (st : GSState) (path : String) : Option Nat × GSState :=
  safe_postAux 1 env st path

/-- `try_rebind` as entered from `watchdog`: fuel 1. -/
def try_rebind (env : Env) (st : GSState) : GSState :=
  try_rebindAux 1 env st

/-- `register_game()`. -/
def register_game (env : Env) (st : GSState) : GSState :=
  (safe_post env st "/game_metadata").2

/-- `bind_screen(event_name)`. -/
def bind_screen (env : Env) (st : GSState) (event : String) : GSState :=
  (safe_post env st "/bind_game_event").2

/-- `bind_all()`. -/
def bind_all (env : Env) (st : GSState) : GSState :=
  bind_screen env (bind_screen env (bind_screen env st CPU_EVENT) GPU_EVENT) RAM_EVENT

/-- `heartbeat()`. -/
def heartbeat (env : Env) (st : GSState) : GSState :=
  (safe_post env st "/game_heartbeat").2

/-! ## `send_screen` and `watchdog` -/

/-- Python `line or ""` for a text line. -/
def orEmpty (l : List Char) : List Char := if l.isEmpty then [] else l

/-- The `/game_event` payload `send_screen` builds: the game and event
names, the current sequence counter, and the two truncated lines. -/
structure GameEventPayload where
  game : String
  event : String
  value : Nat
  l1 : List Char
  l2 : List Char
deriving DecidableEq, Repr

/-- `send_screen(event_name, line1, line2)`: build the payload carrying
`_counter`, POST it via `safe_post`, then increment `_counter` — in that
order, unconditionally.  Returns the payload handed to `safe_post`, the
network outcome, and the final state. -/
def send_screen (env : Env) (st : GSState) (event : String)
    (line1 line2 : List Char) : GameEventPayload × Option Nat × GSState :=
  let payload : GameEventPayload :=
    { game := GAME, event := event, value := st.counter,
      l1 := (orEmpty line1).take 18, l2 := (orEmpty line2).take 18 }
  let r := safe_post env st "/game_event"
  (payload, r.1, { r.2 with counter := r.2.counter + 1 })

/-- `watchdog()` (its GameSense half; the LibreHardwareMonitor half logs
and spawns a process, touching none of this state): when the health check
fails, force a fresh base resolution and rebind — with no cooldown test. -/
def watchdog (env : Env) (st : GSState) : GSState :=
  let r := gamesense_ok env st
  if AUTO_REBIND_ON_FAIL = true ∧ r.1 = false then
    let st1 := (get_current_base env r.2 true).2
    try_rebind env st1
  else r.2

/-- One scheduler-driven entry into the publisher. -/
inductive VEvent where
  | post (env : Env) (path : String)
  | wdog (env : Env)

/-- Run a sequence of scheduler entries. -/
def runEvents (st : GSState) : List VEvent → GSState
  | [] => st
  | .post env path :: rest => runEvents (safe_post env st path).2 rest
  | .wdog env :: rest => runEvents (watchdog env st) rest

/-! ## Helper lemmas: the extraction loop decomposes per field -/

/-- A populated accumulator is never changed by a later node. -/
theorem fieldStep_some (lbl mark : List Char) (q : ℚ) (n : JSON) :
    fieldStep lbl mark (some q) n = .ok (some q) := by
  unfold fieldStep
  cases hT : fieldsGetOpt n "Text" <;> cases hV : fieldsGetOpt n "Value" <;>
    simp [updateField]

/-- `scanNode` acts on each accumulator exactly as the single-field step. -/
theorem scanNode_fields {st st2 : ScanState} {n : JSON}
    (h : scanNode st n = .ok st2) :
    fieldStep lblCoreTctl mCel st.cpu_temp n = .ok st2.cpu_temp ∧
    fieldStep lblCpuTotal mPct st.cpu_load n = .ok st2.cpu_load ∧
    fieldStep lblCoresAvg mMhz st.cpu_clock_mhz n = .ok st2.cpu_clock_mhz ∧
    fieldStep lblGpuCore mCel st.gpu_temp n = .ok st2.gpu_temp ∧
    fieldStep lblHotSpot mCel st.gpu_hotspot n = .ok st2.gpu_hotspot ∧
    fieldStep lblGpuCore mPct st.gpu_core_load n = .ok st2.gpu_core_load ∧
    fieldStep lblD3D mPct st.d3d_3d n = .ok st2.d3d_3d ∧
    fieldStep lblMemUsed mMb st.vram_used_mb n = .ok st2.vram_used_mb ∧
    fieldStep lblMemTotal mMb st.vram_total_mb n = .ok st2.vram_total_mb := by
  unfold scanNode at h
  cases h1 : fieldStep lblCoreTctl mCel st.cpu_temp n with
  | exn => rw [h1] at h; simp at h
  | ok a1 =>
  rw [h1, pyBind_ok] at h
  cases h2 : fieldStep lblCpuTotal mPct st.cpu_load n with
  | exn => rw [h2] at h; simp at h
  | ok a2 =>
  rw [h2, pyBind_ok] at h
  cases h3 : fieldStep lblCoresAvg mMhz st.cpu_clock_mhz n with
  | exn => rw [h3] at h; simp at h
  | ok a3 =>
  rw [h3, pyBind_ok] at h
  cases h4 : fieldStep lblGpuCore mCel st.gpu_temp n with
  | exn => rw [h4] at h; simp at h
  | ok a4 =>
  rw [h4, pyBind_ok] at h
  cases h5 : fieldStep lblHotSpot mCel st.gpu_hotspot n with
  | exn => rw [h5] at h; simp at h
  | ok a5 =>
  rw [h5, pyBind_ok] at h
  cases h6 : fieldStep lblGpuCore mPct st.gpu_core_load n with
  | exn => rw [h6] at h; simp at h
  | ok a6 =>
  rw [h6, pyBind_ok] at h
  cases h7 : fieldStep lblD3D mPct st.d3d_3d n with
  | exn => rw [h7] at h; simp at h
  | ok a7 =>
  rw [h7, pyBind_ok] at h
  cases h8 : fieldStep lblMemUsed mMb st.vram_used_mb n with
  | exn => rw [h8] at h; simp at h
  | ok a8 =>
  rw [h8, pyBind_ok] at h
  cases h9 : fieldStep lblMemTotal mMb st.vram_total_mb n with
  | exn => rw [h9] at h; simp at h
  | ok a9 =>
  rw [h9, pyBind_ok] at h
  cases h
  exact ⟨rfl, rfl, rfl, rfl, rfl, rfl, rfl, rfl, rfl⟩

/-- Projecting the state fold to one accumulator. -/
theorem foldPy_proj (lbl mark : List Char) (proj : ScanState → Option ℚ)
    (hstep : ∀ st n st2, scanNode st n = .ok st2 →
      fieldStep lbl mark (proj st) n = .ok (proj st2)) :
    ∀ (l : List JSON) (st st2 : ScanState),
      foldPy scanNode st l = .ok st2 →
      foldPy (fieldStep lbl mark) (proj st) l = .ok (proj st2) := by
  intro l
  induction l with
  | nil =>
      intro st st2 h
      simp only [foldPy_nil] at h ⊢
      cases h
      rfl
  | cons x xs ih =>
      intro st st2 h
      simp only [foldPy_cons] at h ⊢
      cases hx : scanNode st x with
      | exn => rw [hx] at h; simp at h
      | ok st1 =>
          rw [hx, pyBind_ok] at h
          rw [hstep st x st1 hx, pyBind_ok]
          exact ih st1 st2 h

/-- Once an accumulator holds a value, the rest of the traversal keeps it. -/
theorem foldPy_field_frozen (lbl mark : List Char) :
    ∀ (l : List JSON) (q : ℚ),
      foldPy (fieldStep lbl mark) (some q) l = .ok (some q) := by
  intro l
  induction l with
  | nil => intro q; rfl
  | cons x xs ih =>
      intro q
      simp only [foldPy_cons, fieldStep_some, pyBind_ok]
      exact ih q

/-- A whole-document scan decomposes: every output field of
`lhm_read_metrics` is the single-field scan of its label/marker pair, with
the GPU fields combined by Python `or`. -/
theorem lhm_read_metrics_fields {pref : String} {doc : JSON} {m : Metrics}
    (h : lhm_read_metrics pref (some doc) = .ok m) :
    scanField lblCoreTctl mCel doc = .ok m.cpu_temp ∧
    scanField lblCpuTotal mPct doc = .ok m.cpu_load ∧
    scanField lblCoresAvg mMhz doc = .ok m.cpu_clock_mhz ∧
    scanField lblMemUsed mMb doc = .ok m.vram_used_mb ∧
    scanField lblMemTotal mMb doc = .ok m.vram_total_mb ∧
    ∃ gt hs gc dd,
      scanField lblGpuCore mCel doc = .ok gt ∧
      scanField lblHotSpot mCel doc = .ok hs ∧
      scanField lblGpuCore mPct doc = .ok gc ∧
      scanField lblD3D mPct doc = .ok dd ∧
      m.gpu_temp = pyOr gt hs ∧
      m.gpu_load = (if pyLower pref.toList == "core".toList
                    then pyOr gc dd else pyOr dd gc) := by
  replace h : pyBind (foldPy scanNode initScan (walk_json doc))
      (fun st => PyResult.ok (finalize pref st)) = .ok m := h
  cases hf : foldPy scanNode initScan (walk_json doc) with
  | exn => rw [hf] at h; simp at h
  | ok st =>
      rw [hf, pyBind_ok] at h
      cases h
      unfold scanField
      refine ⟨?_, ?_, ?_, ?_, ?_,
        st.gpu_temp, st.gpu_hotspot, st.gpu_core_load, st.d3d_3d,
        ?_, ?_, ?_, ?_, rfl, rfl⟩
      · exact foldPy_proj _ _ (fun s => s.cpu_temp)
          (fun a b c hh => (scanNode_fields hh).1) _ _ _ hf
      · exact foldPy_proj _ _ (fun s => s.cpu_load)
          (fun a b c hh => (scanNode_fields hh).2.1) _ _ _ hf
      · exact foldPy_proj _ _ (fun s => s.cpu_clock_mhz)
          (fun a b c hh => (scanNode_fields hh).2.2.1) _ _ _ hf
      · exact foldPy_proj _ _ (fun s => s.vram_used_mb)
          (fun a b c hh => (scanNode_fields hh).2.2.2.2.2.2.2.1) _ _ _ hf
      · exact foldPy_proj _ _ (fun s => s.vram_total_mb)
          (fun a b c hh => (scanNode_fields hh).2.2.2.2.2.2.2.2) _ _ _ hf
      · exact foldPy_proj _ _ (fun s => s.gpu_temp)
          (fun a b c hh => (scanNode_fields hh).2.2.2.1) _ _ _ hf
      · exact foldPy_proj _ _ (fun s => s.gpu_hotspot)
          (fun a b c hh => (scanNode_fields hh).2.2.2.2.1) _ _ _ hf
      · exact foldPy_proj _ _ (fun s => s.gpu_core_load)
          (fun a b c hh => (scanNode_fields hh).2.2.2.2.2.1) _ _ _ hf
      · exact foldPy_proj _ _ (fun s => s.d3d_3d)
          (fun a b c hh => (scanNode_fields hh).2.2.2.2.2.2.1) _ _ _ hf

/-- A single-field scan that produced a value read it, through
`_to_float_best`, off a node that qualifies (matching label, unit marker
present in the value text). -/
theorem foldPy_field_source (lbl mark : List Char) :
    ∀ (l : List JSON) (q : ℚ),
      foldPy (fieldStep lbl mark) none l = .ok (some q) →
      ∃ n ∈ l, qualifies lbl mark n = true ∧
        to_float_best (valueOf n) = .ok (some q) := by
  intro l
  induction l with
  | nil => intro q h; simp only [foldPy_nil] at h; cases h
  | cons x xs ih =>
      intro q h
      simp only [foldPy_cons] at h
      cases hx : fieldStep lbl mark none x with
      | exn => rw [hx] at h; simp at h
      | ok c =>
          rw [hx, pyBind_ok] at h
          cases c with
          | none =>
              obtain ⟨n, hn, hq⟩ := ih q h
              exact ⟨n, List.mem_cons_of_mem _ hn, hq⟩
          | some q0 =>
              rw [foldPy_field_frozen] at h
              have hq0 : q0 = q := by
                have := h
                injection this with h'
                injection h'
              subst hq0
              refine ⟨x, List.mem_cons_self _ _, ?_⟩
              unfold fieldStep at hx
              unfold qualifies valueOf
              cases hT : fieldsGetOpt x "Text" with
              | none =>
                  rw [hT] at hx
                  have h0 : PyResult.ok (none : Option ℚ) = .ok (some q0) := hx
                  simp at h0
              | some text =>
                  rw [hT] at hx
                  cases hV : fieldsGetOpt x "Value" with
                  | none =>
                      rw [hV] at hx
                      have h0 : PyResult.ok (none : Option ℚ) = .ok (some q0) := hx
                      simp at h0
                  | some val =>
                      rw [hV] at hx
                      have hx' : (if (nodeGuard lbl mark text val) = true
                          then to_float_best val else PyResult.ok none) =
                          .ok (some q0) := by
                        have h0 : (if (((none : Option ℚ).isNone) &&
                            nodeGuard lbl mark text val) = true
                            then to_float_best val else PyResult.ok none) =
                            .ok (some q0) := hx
                        simpa using h0
                      cases hg : nodeGuard lbl mark text val with
                      | false => simp [hg] at hx'
                      | true =>
                          rw [if_pos hg] at hx'
                          exact ⟨hg, hx'⟩

/-! ## Comma-to-dot normalization commutes with the numeric scan -/

/-- `takeWhile` commutes with a character map that preserves the test. -/
theorem takeWhile_map_inv (p : Char → Bool) (f : Char → Char)
    (hp : ∀ c, p (f c) = p c) :
    ∀ l : List Char, (l.map f).takeWhile p = (l.takeWhile p).map f := by
  intro l
  induction l with
  | nil => rfl
  | cons a l ih =>
      simp only [List.map_cons, List.takeWhile_cons, hp a]
      cases hpa : p a <;> simp [ih]

/-- `dropWhile` commutes with a character map that preserves the test. -/
theorem dropWhile_map_inv (p : Char → Bool) (f : Char → Char)
    (hp : ∀ c, p (f c) = p c) :
    ∀ l : List Char, (l.map f).dropWhile p = (l.dropWhile p).map f := by
  intro l
  induction l with
  | nil => rfl
  | cons a l ih =>
      simp only [List.map_cons, List.dropWhile_cons, hp a]
      cases hpa : p a <;> simp [ih]

/-- Replacing commas by dots preserves membership in the numeric scan set. -/
theorem numChar_comma_dot (c : Char) :
    numChar (if c == ',' then '.' else c) = numChar c := by
  cases h : (c == ',') with
  | true => have hc := eq_of_beq h; subst hc; decide
  | false => simp [h]

/-- Replacing commas by dots preserves whitespace-ness. -/
theorem isSpaceChar_comma_dot (c : Char) :
    isSpaceChar (if c == ',' then '.' else c) = isSpaceChar c := by
  cases h : (c == ',') with
  | true => have hc := eq_of_beq h; subst hc; decide
  | false => simp [h]

/-- `strip` commutes with comma-to-dot replacement. -/
theorem pyStrip_comma_dot (l : List Char) :
    pyStrip (replaceCommaDot l) = replaceCommaDot (pyStrip l) := by
  unfold pyStrip replaceCommaDot
  rw [dropWhile_map_inv _ _ isSpaceChar_comma_dot, ← List.map_reverse,
    dropWhile_map_inv _ _ isSpaceChar_comma_dot, ← List.map_reverse]

/-- The numeric scan commutes with comma-to-dot replacement. -/
theorem extractNum_comma_dot (l : List Char) :
    extractNum (replaceCommaDot l) = replaceCommaDot (extractNum l) := by
  unfold extractNum replaceCommaDot
  rw [dropWhile_map_inv _ _ (by intro c; rw [numChar_comma_dot]),
    takeWhile_map_inv _ _ numChar_comma_dot]

/-- Comma-to-dot replacement is idempotent. -/
theorem replaceCommaDot_idem (l : List Char) :
    replaceCommaDot (replaceCommaDot l) = replaceCommaDot l := by
  unfold replaceCommaDot
  rw [List.map_map]
  refine List.map_congr_left fun c _ => ?_
  show (if ((if c == ',' then '.' else c) == ',') = true then '.' else _) = _
  cases h : (c == ',') with
  | true => have hc := eq_of_beq h; subst hc; decide
  | false => simp [h]

/-- Mapping preserves emptiness. -/
theorem isEmpty_map (f : Char → Char) (l : List Char) :
    (l.map f).isEmpty = l.isEmpty := by
  cases l <;> rfl

/-- Python `a or b` yields a value only from `a` (nonzero) or from `b`. -/
theorem pyOr_eq_some {a b : Option ℚ} {q : ℚ} (h : pyOr a b = some q) :
    a = some q ∨ b = some q := by
  unfold pyOr at h
  cases a with
  | none => exact Or.inr h
  | some q0 =>
      replace h : (if q0 = 0 then b else some q0) = some q := h
      by_cases h0 : q0 = 0
      · rw [if_pos h0] at h; exact Or.inr h
      · rw [if_neg h0] at h; exact Or.inl h

/-- `None or b = b`. -/
theorem pyOr_none (b : Option ℚ) : pyOr none b = b := rfl

/-- `0.0 or b = b`: a zero reading is falsy. -/
theorem pyOr_zero (b : Option ℚ) : pyOr (some 0) b = b := by
  show (if (0 : ℚ) = 0 then b else some 0) = b
  rw [if_pos rfl]

/-- A nonzero reading short-circuits `or`. -/
theorem pyOr_nonzero {q : ℚ} (h : q ≠ 0) (b : Option ℚ) :
    pyOr (some q) b = some q := by
  show (if q = 0 then b else some q) = some q
  rw [if_neg h]

/-- `pyBind` is associative. -/
theorem pyBind_assoc {α β γ : Type} (r : PyResult α) (f : α → PyResult β)
    (g : β → PyResult γ) :
    pyBind (pyBind r f) g = pyBind r (fun a => pyBind (f a) g) := by
  cases r <;> rfl

/-- The fold splits over an append. -/
theorem foldPy_append {σ α : Type} (f : σ → α → PyResult σ) :
    ∀ (l1 l2 : List α) (s : σ),
      foldPy f s (l1 ++ l2) = pyBind (foldPy f s l1) fun s' => foldPy f s' l2 := by
  intro l1
  induction l1 with
  | nil => intro l2 s; simp
  | cons x xs ih =>
      intro l2 s
      simp only [List.cons_append, foldPy_cons, pyBind_assoc]
      congr 1
      funext s'
      exact ih l2 s'

/-- A stretch of nodes that all leave the accumulator empty folds to empty. -/
theorem foldPy_field_none (lbl mark : List Char) :
    ∀ (l : List JSON), (∀ x ∈ l, fieldStep lbl mark none x = .ok none) →
      foldPy (fieldStep lbl mark) none l = .ok none := by
  intro l
  induction l with
  | nil => intro _; rfl
  | cons x xs ih =>
      intro hall
      simp only [foldPy_cons, hall x (List.mem_cons_self _ _), pyBind_ok]
      exact ih fun y hy => hall y (List.mem_cons_of_mem _ hy)

/-! ## Concrete documents used as evidence -/

/-- A document whose `GPU Core` percent node reads `0.0 %` while a
`D3D 3D` node reads `50.0 %`. -/
def docGpuZero : JSON := jObj [("Children", jArr [
  jObj [("Text", jStr "GPU Core"), ("Value", jStr "0.0 %")],
  jObj [("Text", jStr "D3D 3D"), ("Value", jStr "50.0 %")]])]

/-- A document with a `CPU Total` node whose value text `1-2 %` scans to
`1-2`, on which `float()` raises, and a perfectly good temperature node
after it. -/
def docDashValue : JSON := jObj [("Children", jArr [
  jObj [("Text", jStr "CPU Total"), ("Value", jStr "1-2 %")],
  jObj [("Text", jStr "Core (Tctl/Tdie)"), ("Value", jStr "52,4 °C")]])]

/-- A document with two qualifying `CPU Total` percent nodes, `30 %` first
and `55 %` second in document order. -/
def docTwoCpu : JSON := jObj [("Children", jArr [
  jObj [("Text", jStr "CPU Total"), ("Value", jStr "30 %")],
  jObj [("Text", jStr "CPU Total"), ("Value", jStr "55 %")]])]

/-- A document with a single CPU-temperature node reading `52,4 °C`. -/
def docOneTemp : JSON :=
  jObj [("Text", jStr "Core (Tctl/Tdie)"), ("Value", jStr "52,4 °C")]

/-- The snapshot `docGpuZero` produces under source preference `core`. -/
def mGpuZeroCore : Metrics := ⟨none, none, none, none, some 50, none, none⟩

/-- The snapshot `docGpuZero` produces under source preference `d3d`. -/
def mGpuZeroD3d : Metrics := ⟨none, none, none, none, some 50, none, none⟩

/-- The snapshot `docOneTemp` produces. -/
def mOneTemp : Metrics := ⟨some (mkRat 262 5), none, none, none, none, none, none⟩

/-! ## C8 -/

/-- C8: for every numeric value text, replacing each comma by a dot leaves
the result of `_to_float_best` unchanged; in particular `"52,6 °C"` and
`"52.6 °C"` both normalize to 52.6. -/
theorem c8_comma_decimal_equiv :
    (∀ l : List Char,
      to_float_best (JSON.str ⟨replaceCommaDot l⟩) = to_float_best (JSON.str ⟨l⟩)) ∧
    to_float_best (jStr "52,6 °C") = .ok (some (mkRat 263 5)) ∧
    to_float_best (jStr "52.6 °C") = .ok (some (mkRat 263 5)) := by
  refine ⟨fun l => ?_, by decide, by decide⟩
  show toFloatScan (replaceCommaDot l) = toFloatScan l
  simp only [toFloatScan]
  rw [pyStrip_comma_dot, extractNum_comma_dot, replaceCommaDot_idem]
  have hie : (replaceCommaDot (extractNum (pyStrip l))).isEmpty =
      (extractNum (pyStrip l)).isEmpty := isEmpty_map _ _
  rw [hie]

/-! ## C3 -/

/-- C3 (code defect): the claim says an unparseable value text yields the
distinguishable unknown state and never aborts the snapshot, but the value
text `1-2 %` scans to `1-2`, on which `float()` raises `ValueError`, and
the exception escapes `lhm_read_metrics` (its `try` covers only the HTTP
fetch), aborting extraction of every other field. -/
theorem c3_unparseable_aborts :
    to_float_best (jStr "1-2 %") = .exn ∧
    lhm_read_metrics "d3d" (some docDashValue) = .exn ∧
    lhm_read_metrics "d3d" (some docOneTemp) = .ok mOneTemp := by decide

/-! ## C2 -/

/-- C2 (counterexample): with source preference `core`, a `GPU Core`
percent node exists and is read (value 0), yet the resolved GPU load is
the `D3D 3D` value 50 — Python `or` treats the found 0.0 as falsy, so the
fallback is not used "only when the chosen label's node was not found". -/
theorem c2_gpu_fallback_cex :
    lhm_read_metrics "core" (some docGpuZero) = .ok mGpuZeroCore ∧
    scanField lblGpuCore mPct docGpuZero = .ok (some 0) ∧
    scanField lblD3D mPct docGpuZero = .ok (some 50) ∧
    mGpuZeroCore.gpu_load = some 50 := by decide

/-- C2 (amended): the unchosen GPU-load label is used exactly when the
chosen label's extracted value is absent **or zero** (Python `or`
falsiness), and likewise GPU temperature falls back to the hot-spot value
exactly when the preferred `GPU Core` temperature is absent or zero;
values are never averaged — the result is always one of the two scans. -/
theorem c2_gpu_fallback_amended (doc : JSON) (m1 m2 : Metrics)
    (c d gt hs : Option ℚ)
    (h1 : lhm_read_metrics "core" (some doc) = .ok m1)
    (h2 : lhm_read_metrics "d3d" (some doc) = .ok m2)
    (hc : scanField lblGpuCore mPct doc = .ok c)
    (hd : scanField lblD3D mPct doc = .ok d)
    (hgt : scanField lblGpuCore mCel doc = .ok gt)
    (hhs : scanField lblHotSpot mCel doc = .ok hs) :
    ((c = none ∨ c = some 0) → m1.gpu_load = d) ∧
    (∀ q : ℚ, c = some q → q ≠ 0 → m1.gpu_load = some q) ∧
    ((d = none ∨ d = some 0) → m2.gpu_load = c) ∧
    (∀ q : ℚ, d = some q → q ≠ 0 → m2.gpu_load = some q) ∧
    ((gt = none ∨ gt = some 0) → m1.gpu_temp = hs) ∧
    (∀ q : ℚ, gt = some q → q ≠ 0 → m1.gpu_temp = some q) := by
  obtain ⟨-, -, -, -, -, gt1, hs1, gc1, dd1, hgt1, hhs1, hgc1, hdd1, hT1, hL1⟩ :=
    lhm_read_metrics_fields h1
  obtain ⟨-, -, -, -, -, gt2, hs2, gc2, dd2, hgt2, hhs2, hgc2, hdd2, hT2, hL2⟩ :=
    lhm_read_metrics_fields h2
  have hcore : (pyLower "core".toList == "core".toList) = true := by decide
  have hd3d : (pyLower "d3d".toList == "core".toList) = false := by decide
  rw [hcore, if_pos rfl] at hL1
  rw [hd3d] at hL2
  simp only [Bool.false_eq_true, if_false] at hL2
  have hec : gc1 = c := by rw [hgc1] at hc; injection hc
  have hed : dd1 = d := by rw [hdd1] at hd; injection hd
  have hec2 : gc2 = c := by rw [hgc2] at hc; injection hc
  have hed2 : dd2 = d := by rw [hdd2] at hd; injection hd
  have hegt : gt1 = gt := by rw [hgt1] at hgt; injection hgt
  have hehs : hs1 = hs := by rw [hhs1] at hhs; injection hhs
  subst hec hed hec2 hed2 hegt hehs
  refine ⟨?_, ?_, ?_, ?_, ?_, ?_⟩
  · rintro (hcn | hc0)
    · subst hcn; rw [hL1, pyOr_none]
    · subst hc0; rw [hL1, pyOr_zero]
  · intro q hq hq0; subst hq; rw [hL1, pyOr_nonzero hq0]
  · rintro (hdn | hd0)
    · subst hdn; rw [hL2, pyOr_none]
    · subst hd0; rw [hL2, pyOr_zero]
  · intro q hq hq0; subst hq; rw [hL2, pyOr_nonzero hq0]
  · rintro (hgn | hg0)
    · subst hgn; rw [hT1, pyOr_none]
    · subst hg0; rw [hT1, pyOr_zero]
  · intro q hq hq0; subst hq; rw [hT1, pyOr_nonzero hq0]

/-- C2 amended, exercised at `docGpuZero`: the chosen `core` scan reads 0,
so the resolved load equals the `D3D 3D` scan's value. -/
theorem c2_gpu_fallback_amended_witness : mGpuZeroCore.gpu_load = some 50 :=
  (c2_gpu_fallback_amended docGpuZero mGpuZeroCore mGpuZeroD3d
    (some 0) (some 50) none none (by decide) (by decide) (by decide)
    (by decide) (by decide) (by decide)).1 (Or.inr rfl)

/-! ## C4 -/

/-- C4: first match wins.  If the traversal order of a document puts node
`n` after a stretch of nodes none of which produces a value for the
label/marker pair, and `n` qualifies and parses to `q`, then the
field's whole-document scan returns `q` — whatever matching nodes appear
later in the traversal are never allowed to overwrite it. -/
theorem c4_first_match_wins (lbl mark : List Char) (doc : JSON)
    (l1 l2 : List JSON) (n : JSON) (q : ℚ)
    (hwalk : walk_json doc = l1 ++ n :: l2)
    (hbefore : ∀ x ∈ l1, fieldStep lbl mark none x = .ok none)
    (hn : fieldStep lbl mark none n = .ok (some q)) :
    scanField lbl mark doc = .ok (some q) := by
  unfold scanField
  rw [hwalk, foldPy_append, foldPy_field_none lbl mark l1 hbefore, pyBind_ok,
    foldPy_cons, hn, pyBind_ok, foldPy_field_frozen]

/-- C4, exercised on a document with two qualifying `CPU Total` nodes
(`30 %` then `55 %`): the scan returns the first, 30. -/
theorem c4_first_match_wins_witness :
    scanField lblCpuTotal mPct docTwoCpu = .ok (some 30) := by
  refine c4_first_match_wins lblCpuTotal mPct docTwoCpu [docTwoCpu] _
    (jObj [("Text", jStr "CPU Total"), ("Value", jStr "30 %")]) 30
    (by rfl) (by decide) (by decide)

/-! ## C7 -/

/-- C7: a populated field always traces back, through `_to_float_best`, to
a node whose label matches one of the field's bound names **and** whose
value text carries the field's unit marker (Celsius `c` for temperatures,
`%` for loads, `mhz` for the clock, `mb` for VRAM): extraction never
populates a field from a node lacking the marker, even on a label match. -/
theorem c7_unit_marker_guard (pref : String) (doc : JSON) (m : Metrics)
    (h : lhm_read_metrics pref (some doc) = .ok m) :
    (∀ q : ℚ, m.cpu_temp = some q → ∃ n ∈ walk_json doc,
      qualifies lblCoreTctl mCel n = true ∧
      to_float_best (valueOf n) = .ok (some q)) ∧
    (∀ q : ℚ, m.cpu_load = some q → ∃ n ∈ walk_json doc,
      qualifies lblCpuTotal mPct n = true ∧
      to_float_best (valueOf n) = .ok (some q)) ∧
    (∀ q : ℚ, m.cpu_clock_mhz = some q → ∃ n ∈ walk_json doc,
      qualifies lblCoresAvg mMhz n = true ∧
      to_float_best (valueOf n) = .ok (some q)) ∧
    (∀ q : ℚ, m.vram_used_mb = some q → ∃ n ∈ walk_json doc,
      qualifies lblMemUsed mMb n = true ∧
      to_float_best (valueOf n) = .ok (some q)) ∧
    (∀ q : ℚ, m.vram_total_mb = some q → ∃ n ∈ walk_json doc,
      qualifies lblMemTotal mMb n = true ∧
      to_float_best (valueOf n) = .ok (some q)) ∧
    (∀ q : ℚ, m.gpu_temp = some q → ∃ n ∈ walk_json doc,
      (qualifies lblGpuCore mCel n = true ∨ qualifies lblHotSpot mCel n = true) ∧
      to_float_best (valueOf n) = .ok (some q)) ∧
    (∀ q : ℚ, m.gpu_load = some q → ∃ n ∈ walk_json doc,
      (qualifies lblGpuCore mPct n = true ∨ qualifies lblD3D mPct n = true) ∧
      to_float_best (valueOf n) = .ok (some q)) := by
  obtain ⟨hct, hcl, hcc, hvu, hvt, gt, hs, gc, dd, hgt, hhs, hgc, hdd, hT, hL⟩ :=
    lhm_read_metrics_fields h
  refine ⟨?_, ?_, ?_, ?_, ?_, ?_, ?_⟩
  · intro q hq; rw [hq] at hct
    exact foldPy_field_source _ _ _ q hct
  · intro q hq; rw [hq] at hcl
    exact foldPy_field_source _ _ _ q hcl
  · intro q hq; rw [hq] at hcc
    exact foldPy_field_source _ _ _ q hcc
  · intro q hq; rw [hq] at hvu
    exact foldPy_field_source _ _ _ q hvu
  · intro q hq; rw [hq] at hvt
    exact foldPy_field_source _ _ _ q hvt
  · intro q hq
    have hor : pyOr gt hs = some q := (hT.symm.trans hq)
    rcases pyOr_eq_some hor with hgt' | hhs'
    · subst hgt'
      obtain ⟨n, hn, hqual, hval⟩ := foldPy_field_source _ _ _ q hgt
      exact ⟨n, hn, Or.inl hqual, hval⟩
    · subst hhs'
      obtain ⟨n, hn, hqual, hval⟩ := foldPy_field_source _ _ _ q hhs
      exact ⟨n, hn, Or.inr hqual, hval⟩
  · intro q hq
    have hor : (if (pyLower pref.toList == "core".toList) = true
        then pyOr gc dd else pyOr dd gc) = some q := (hL.symm.trans hq)
    by_cases hcond : (pyLower pref.toList == "core".toList) = true
    · rw [if_pos hcond] at hor
      rcases pyOr_eq_some hor with hgc' | hdd'
      · subst hgc'
        obtain ⟨n, hn, hqual, hval⟩ := foldPy_field_source _ _ _ q hgc
        exact ⟨n, hn, Or.inl hqual, hval⟩
      · subst hdd'
        obtain ⟨n, hn, hqual, hval⟩ := foldPy_field_source _ _ _ q hdd
        exact ⟨n, hn, Or.inr hqual, hval⟩
    · rw [if_neg hcond] at hor
      rcases pyOr_eq_some hor with hdd' | hgc'
      · subst hdd'
        obtain ⟨n, hn, hqual, hval⟩ := foldPy_field_source _ _ _ q hdd
        exact ⟨n, hn, Or.inr hqual, hval⟩
      · subst hgc'
        obtain ⟨n, hn, hqual, hval⟩ := foldPy_field_source _ _ _ q hgc
        exact ⟨n, hn, Or.inl hqual, hval⟩

/-- C7, exercised at `docOneTemp`: the populated CPU temperature traces to
its qualifying node. -/
theorem c7_unit_marker_guard_witness :
    ∃ n ∈ walk_json docOneTemp, qualifies lblCoreTctl mCel n = true ∧
      to_float_best (valueOf n) = .ok (some (mkRat 262 5)) :=
  (c7_unit_marker_guard "d3d" docOneTemp mOneTemp (by decide)).1
    (mkRat 262 5) (by decide)

/-! ## C10 -/

/-- Rendering a clamped fill count: the bar is always bracketed, 16 bar
characters wide, 18 characters long. -/
theorem bar_shape (F : ℤ) (hF0 : 0 ≤ F) (hF16 : F ≤ (BAR_WIDTH : ℤ)) :
    ∃ k : ℕ, k ≤ BAR_WIDTH ∧
      ('[' :: (List.replicate F.toNat BAR_FILLED ++
        List.replicate ((BAR_WIDTH : ℤ) - F).toNat BAR_EMPTY) ++ [']'] : List Char) =
      '[' :: (List.replicate k BAR_FILLED ++
        List.replicate (BAR_WIDTH - k) BAR_EMPTY) ++ [']'] ∧
      ('[' :: (List.replicate F.toNat BAR_FILLED ++
        List.replicate ((BAR_WIDTH : ℤ) - F).toNat BAR_EMPTY) ++ [']'] : List Char).length = 18 := by
  have hBW : BAR_WIDTH = 16 := rfl
  rw [hBW] at hF16 ⊢
  push_cast at hF16 ⊢
  refine ⟨F.toNat, by omega, ?_, ?_⟩
  · have hsub : ((16 : ℤ) - F).toNat = 16 - F.toNat := by omega
    rw [hsub]
  · have hsub : ((16 : ℤ) - F).toNat = 16 - F.toNat := by omega
    rw [hsub]
    simp only [List.length_cons, List.length_append, List.length_replicate,
      List.length_nil]
    omega

/-- C10: for every pair of inputs the progress bar is exactly 18
characters — `[`, 16 bar characters, `]` — with the division guarded:
a missing value or a non-positive total renders the fully empty bar, and
otherwise the filled count is clamped into `0..16` even when `used/total`
falls outside `[0, 1]`. -/
theorem c10_progress_bar_shape (used total : Option ℚ) :
    ∃ k : ℕ, k ≤ BAR_WIDTH ∧
      progress_bar used total =
        '[' :: (List.replicate k BAR_FILLED ++
                List.replicate (BAR_WIDTH - k) BAR_EMPTY) ++ [']'] ∧
      (progress_bar used total).length = 18 ∧
      ((used = none ∨ total = none ∨ ∃ t, total = some t ∧ t ≤ 0) → k = 0) := by
  match used, total with
  | none, total =>
      have hpb : progress_bar none total =
          '[' :: List.replicate BAR_WIDTH BAR_EMPTY ++ [']'] := rfl
      refine ⟨0, by decide, ?_, ?_, fun _ => rfl⟩
      · rw [hpb]; decide
      · rw [hpb]; decide
  | some u, none =>
      have hpb : progress_bar (some u) none =
          '[' :: List.replicate BAR_WIDTH BAR_EMPTY ++ [']'] := rfl
      refine ⟨0, by decide, ?_, ?_, fun _ => rfl⟩
      · rw [hpb]; decide
      · rw [hpb]; decide
  | some u, some t =>
      by_cases ht : t ≤ 0
      · have hpb : progress_bar (some u) (some t) =
            '[' :: List.replicate BAR_WIDTH BAR_EMPTY ++ [']'] := by
          simp only [progress_bar]
          rw [if_pos ht]
        refine ⟨0, by decide, ?_, ?_, fun _ => rfl⟩
        · rw [hpb]; decide
        · rw [hpb]; decide
      · have hpb : progress_bar (some u) (some t) =
            '[' :: (List.replicate
                (max 0 (min (BAR_WIDTH : ℤ)
                  (pyRound (max 0 (min 1 (u / t)) * (BAR_WIDTH : ℚ))))).toNat BAR_FILLED ++
              List.replicate ((BAR_WIDTH : ℤ) -
                max 0 (min (BAR_WIDTH : ℤ)
                  (pyRound (max 0 (min 1 (u / t)) * (BAR_WIDTH : ℚ))))).toNat BAR_EMPTY) ++ [']'] := by
          simp only [progress_bar]
          rw [if_neg ht]
        obtain ⟨k, hk, heq, hlen⟩ := bar_shape
          (max 0 (min (BAR_WIDTH : ℤ)
            (pyRound (max 0 (min 1 (u / t)) * (BAR_WIDTH : ℚ)))))
          (le_max_left _ _)
          (by
            have h16 : (0 : ℤ) ≤ (BAR_WIDTH : ℤ) := by decide
            exact max_le h16 (min_le_left _ _))
        refine ⟨k, hk, ?_, ?_, ?_⟩
        · rw [hpb]; exact heq
        · rw [hpb]; exact hlen
        · rintro (h | h | ⟨t', ht', hle⟩)
          · exact absurd h (by simp)
          · exact absurd h (by simp)
          · have htt : t = t' := by injection ht'
            exact absurd (htt ▸ hle) ht

/-! ## Helper lemmas: the publisher state machine -/

/-- Base resolution never touches the cooldown clock, the sequence counter
or the rebind log. -/
theorem get_current_base_preserves (env : Env) (st : GSState) (f : Bool) :
    (get_current_base env st f).2.lastRebind = st.lastRebind ∧
    (get_current_base env st f).2.counter = st.counter ∧
    (get_current_base env st f).2.rebindTimes = st.rebindTimes := by
  simp only [get_current_base]
  split
  · exact ⟨rfl, rfl, rfl⟩
  · split
    · split
      · exact ⟨rfl, rfl, rfl⟩
      · exact ⟨rfl, rfl, rfl⟩
    · exact ⟨rfl, rfl, rfl⟩

/-- The health check never touches the cooldown clock, the counter or the
rebind log either. -/
theorem gamesense_ok_preserves (env : Env) (st : GSState) :
    (gamesense_ok env st).2.lastRebind = st.lastRebind ∧
    (gamesense_ok env st).2.counter = st.counter ∧
    (gamesense_ok env st).2.rebindTimes = st.rebindTimes := by
  simp only [gamesense_ok]
  split
  · exact get_current_base_preserves env st false
  · exact get_current_base_preserves env st false

/-- What one `safe_post` body can do to the state: either no rebind ran
(the state is just the base-resolution state), or the cooldown had lapsed
and the rebind continuation was entered on a state whose cooldown clock
was just set to now, with counter and log untouched up to that point. -/
theorem safePostCore_state (env : Env) (st : GSState) (path : String)
    (rebind : GSState → GSState) :
    (safePostCore env st path rebind).2 = (get_current_base env st false).2 ∨
    (REBIND_COOLDOWN_SECONDS < ratSub env.now st.lastRebind ∧
      ∃ s1 : GSState, s1.lastRebind = env.now ∧ s1.counter = st.counter ∧
        s1.rebindTimes = st.rebindTimes ∧
        (safePostCore env st path rebind).2 = rebind s1) := by
  obtain ⟨hlr, hco, hrt⟩ := get_current_base_preserves env st false
  simp only [safePostCore]
  split
  · exact Or.inl rfl
  · split
    · split
      · split
        · rename_i hguard
          rw [hlr] at hguard
          refine Or.inr ⟨hguard, _, ?_, ?_, ?_, rfl⟩
          · rfl
          · exact hco
          · exact hrt
        · exact Or.inl rfl
      · exact Or.inl rfl
    · split
      · split
        · rename_i hguard
          rw [hlr] at hguard
          obtain ⟨hlr2, hco2, hrt2⟩ := get_current_base_preserves env
            { (get_current_base env st false).2 with lastRebind := env.now } true
          refine Or.inr ⟨hguard, _, ?_, ?_, ?_, rfl⟩
          · rw [hlr2]
          · rw [hco2]; exact hco
          · rw [hrt2]; exact hrt
        · exact Or.inl rfl
      · exact Or.inl rfl

/-- A depth-0 post never touches counter or log, and its cooldown clock is
either untouched or set to now. -/
theorem safe_postAux_zero_state (env : Env) (s : GSState) (p : String) :
    (safe_postAux 0 env s p).2.counter = s.counter ∧
    (safe_postAux 0 env s p).2.rebindTimes = s.rebindTimes ∧
    ((safe_postAux 0 env s p).2.lastRebind = s.lastRebind ∨
     (safe_postAux 0 env s p).2.lastRebind = env.now) := by
  obtain ⟨hlr, hco, hrt⟩ := get_current_base_preserves env s false
  have hdef : safe_postAux 0 env s p = safePostCore env s p (fun x => x) := rfl
  rw [hdef]
  rcases safePostCore_state env s p (fun x => x) with h | ⟨-, s1, h1, h2, h3, h4⟩
  · rw [h]
    exact ⟨hco, hrt, Or.inl hlr⟩
  · rw [h4]
    exact ⟨h2, h3, Or.inr h1⟩

/-- The depth-0 rebind sequence appends exactly one entry to the log and
leaves the cooldown clock (already equal to now) and the counter alone. -/
theorem try_rebindAux_zero (env : Env) (s : GSState) (h : s.lastRebind = env.now) :
    (try_rebindAux 0 env s).rebindTimes = s.rebindTimes ++ [env.now] ∧
    (try_rebindAux 0 env s).lastRebind = env.now ∧
    (try_rebindAux 0 env s).counter = s.counter := by
  show (tryRebindWith (fun s p => safe_postAux 0 env s p) env s).rebindTimes = _ ∧ _
  simp only [tryRebindWith]
  set s0 : GSState := { s with rebindTimes := s.rebindTimes ++ [env.now] } with hs0
  have h0 : s0.rebindTimes = s.rebindTimes ++ [env.now] ∧ s0.lastRebind = env.now ∧
      s0.counter = s.counter := ⟨rfl, h, rfl⟩
  have step : ∀ (x : GSState) (p : String),
      (x.rebindTimes = s.rebindTimes ++ [env.now] ∧ x.lastRebind = env.now ∧
        x.counter = s.counter) →
      ((safe_postAux 0 env x p).2.rebindTimes = s.rebindTimes ++ [env.now] ∧
        (safe_postAux 0 env x p).2.lastRebind = env.now ∧
        (safe_postAux 0 env x p).2.counter = s.counter) := by
    intro x p ⟨hxr, hxl, hxc⟩
    obtain ⟨hc, hr, hl⟩ := safe_postAux_zero_state env x p
    refine ⟨hr.trans hxr, ?_, hc.trans hxc⟩
    rcases hl with hl | hl
    · rw [hl, hxl]
    · rw [hl]
  have h1 := step s0 "/game_metadata" h0
  have h2 := step _ "/bind_game_event" h1
  have h3 := step _ "/bind_game_event" h2
  have h4 := step _ "/bind_game_event" h3
  exact ⟨h4.1, h4.2.1, h4.2.2⟩

/-- `safe_post` unfolded to its body over the depth-0 rebind sequence. -/
theorem safe_post_def (env : Env) (st : GSState) (path : String) :
    safe_post env st path = safePostCore env st path (try_rebindAux 0 env) := rfl

/-- What one scheduler-level `safe_post` does to the cooldown clock and
the rebind log: either both are untouched, or the cooldown had lapsed and
exactly one rebind is logged at now; the counter is never touched. -/
theorem safe_post_state (env : Env) (st : GSState) (path : String) :
    (safe_post env st path).2.counter = st.counter ∧
    (((safe_post env st path).2.lastRebind = st.lastRebind ∧
      (safe_post env st path).2.rebindTimes = st.rebindTimes) ∨
     (REBIND_COOLDOWN_SECONDS < ratSub env.now st.lastRebind ∧
      (safe_post env st path).2.lastRebind = env.now ∧
      (safe_post env st path).2.rebindTimes = st.rebindTimes ++ [env.now])) := by
  obtain ⟨hlr, hco, hrt⟩ := get_current_base_preserves env st false
  rw [safe_post_def]
  rcases safePostCore_state env st path (try_rebindAux 0 env) with h | ⟨hg, s1, h1, h2, h3, h4⟩
  · rw [h]; exact ⟨hco, Or.inl ⟨hlr, hrt⟩⟩
  · obtain ⟨htr1, htr2, htr3⟩ := try_rebindAux_zero env s1 h1
    rw [h4]
    refine ⟨htr3.trans h2, Or.inr ⟨hg, htr2, ?_⟩⟩
    rw [htr1, h3]

/-- With the cooldown clock already at now, the rebind branch of a post is
dead, so the continuation — and hence the fuel — is irrelevant. -/
theorem safePostCore_rebind_dead (env : Env) (st : GSState) (path : String)
    (h : st.lastRebind = env.now) (r1 r2 : GSState → GSState) :
    safePostCore env st path r1 = safePostCore env st path r2 := by
  have hlr : (get_current_base env st false).2.lastRebind = env.now := by
    rw [(get_current_base_preserves env st false).1, h]
  have hguard : ¬ (REBIND_COOLDOWN_SECONDS <
      ratSub env.now (get_current_base env st false).2.lastRebind) := by
    rw [hlr, ratSub_eq, sub_self]
    norm_num [REBIND_COOLDOWN_SECONDS]
  simp only [safePostCore, if_neg hguard]

/-- Fuel does not matter: every nested rebind entry point is reached with
the cooldown clock freshly set, killing the deeper rebind branch, so depth
1 — the depth used by all top-level entry points — is already exact. -/
theorem safe_postAux_fuel_irrelevant (env : Env) (st : GSState) (path : String)
    (h : st.lastRebind = env.now) :
    ∀ fuel : Nat, safe_postAux fuel env st path = safe_postAux 0 env st path := by
  intro fuel
  cases fuel with
  | zero => rfl
  | succ n =>
      show safePostCore env st path _ = safePostCore env st path _
      exact safePostCore_rebind_dead env st path h _ _

/-- A watchdog tick that sees an unhealthy endpoint runs the rebind
sequence unconditionally: the log grows by an entry at now (plus whatever
the rebind sequence's own failing posts add), with no cooldown test. -/
theorem watchdog_rebinds (env : Env) (st : GSState)
    (h : (gamesense_ok env st).1 = false) :
    ∃ l : List ℚ, (watchdog env st).rebindTimes = st.rebindTimes ++ env.now :: l := by
  obtain ⟨-, -, hos⟩ := gamesense_ok_preserves env st
  obtain ⟨-, -, hfs⟩ := get_current_base_preserves env (gamesense_ok env st).2 true
  have hcond : AUTO_REBIND_ON_FAIL = true ∧ (gamesense_ok env st).1 = false :=
    ⟨rfl, h⟩
  simp only [watchdog, if_pos hcond]
  show ∃ l, (try_rebindAux 1 env _).rebindTimes = _
  set s1 : GSState := (get_current_base env (gamesense_ok env st).2 true).2 with hs1
  have hs1r : s1.rebindTimes = st.rebindTimes := by rw [hfs, hos]
  show ∃ l, (tryRebindWith (fun s p => safe_postAux 1 env s p) env s1).rebindTimes = _
  simp only [tryRebindWith]
  have step : ∀ (x : GSState) (p : String) (l0 : List ℚ),
      x.rebindTimes = st.rebindTimes ++ env.now :: l0 →
      ∃ l1, (safe_post env x p).2.rebindTimes = st.rebindTimes ++ env.now :: l1 := by
    intro x p l0 hx
    obtain ⟨-, hcase⟩ := safe_post_state env x p
    rcases hcase with ⟨-, hr⟩ | ⟨-, -, hr⟩
    · exact ⟨l0, by rw [hr, hx]⟩
    · exact ⟨l0 ++ [env.now], by rw [hr, hx]; simp⟩
  obtain ⟨l1, hl1⟩ := step { s1 with rebindTimes := s1.rebindTimes ++ [env.now] }
    "/game_metadata" [] (by rw [hs1r])
  obtain ⟨l2, hl2⟩ := step _ "/bind_game_event" l1 hl1
  obtain ⟨l3, hl3⟩ := step _ "/bind_game_event" l2 hl2
  obtain ⟨l4, hl4⟩ := step _ "/bind_game_event" l3 hl3
  exact ⟨l4, hl4⟩

/-- Over any run of scheduler-level posts, the rebind log grows by a
chain of timestamps each more than a cooldown after the previous one
(anchored at the incoming cooldown clock). -/
theorem runPosts_chain :
    ∀ (es : List (Env × String)) (st : GSState),
      ∃ ts : List ℚ,
        (runEvents st (es.map fun e => VEvent.post e.1 e.2)).rebindTimes =
          st.rebindTimes ++ ts ∧
        List.Chain (fun a b => REBIND_COOLDOWN_SECONDS < b - a) st.lastRebind ts := by
  intro es
  induction es with
  | nil => intro st; exact ⟨[], by simp [runEvents], List.Chain.nil⟩
  | cons e rest ih =>
      intro st
      obtain ⟨hco, hcase⟩ := safe_post_state e.1 st e.2
      obtain ⟨ts, hts, hch⟩ := ih (safe_post e.1 st e.2).2
      rcases hcase with ⟨hlr, hrt⟩ | ⟨hg, hlr, hrt⟩
      · refine ⟨ts, ?_, ?_⟩
        · show (runEvents (safe_post e.1 st e.2).2
            (rest.map fun e => VEvent.post e.1 e.2)).rebindTimes = _
          rw [hts, hrt]
        · rw [← hlr]; exact hch
      · refine ⟨e.1.now :: ts, ?_, ?_⟩
        · show (runEvents (safe_post e.1 st e.2).2
            (rest.map fun e => VEvent.post e.1 e.2)).rebindTimes = _
          rw [hts, hrt]
          simp
        · refine List.Chain.cons ?_ ?_
          · rw [← ratSub_eq]; exact hg
          · rw [← hlr]; exact hch

/-! ## C1 -/

/-- The state just before the counterexample trace: a cached live base,
cooldown clock at 0. -/
def stCooldown : GSState := ⟨some "http://127.0.0.1:9", 100, 0, 0, []⟩

/-- At t = 100 the control API answers 500 to every POST. -/
def envT100 : Env := ⟨100, [some "127.0.0.1:9"], fun _ _ => some 500⟩

/-- At t = 105 every request raises (the API is down). -/
def envT105 : Env := ⟨105, [some "127.0.0.1:9"], fun _ _ => none⟩

/-- C1 (counterexample): a failed send at t = 100 rebinds and starts the
cooldown window, yet a failed watchdog health check at t = 105 — inside
the window — rebinds again: the rebind log shows two rebinds 5 seconds
apart, violating "at most one rebind per cooldown window regardless of
send or health-check failures" (the watchdog path has no cooldown test). -/
theorem c1_rebind_cooldown_cex :
    (runEvents stCooldown
      [.post envT100 "/game_event", .wdog envT105]).rebindTimes = [100, 105] ∧
    (105 : ℚ) - 100 ≤ REBIND_COOLDOWN_SECONDS := by
  constructor
  · decide
  · rw [REBIND_COOLDOWN_SECONDS]; norm_num

/-- C1 (amended): rebinds triggered by failed sends respect the cooldown —
whenever one is performed, no further send-failure rebind happens until
more than `REBIND_COOLDOWN_SECONDS` later — but a watchdog health-check
failure triggers the rebind sequence unconditionally, bypassing the
cooldown. -/
theorem c1_rebind_cooldown_amended :
    (∀ (st : GSState) (es : List (Env × String)), st.rebindTimes = [] →
      List.Chain (fun a b => REBIND_COOLDOWN_SECONDS < b - a) st.lastRebind
        (runEvents st (es.map fun e => VEvent.post e.1 e.2)).rebindTimes) ∧
    (∀ (env : Env) (st : GSState), (gamesense_ok env st).1 = false →
      ∃ l : List ℚ, (watchdog env st).rebindTimes = st.rebindTimes ++ env.now :: l) := by
  constructor
  · intro st es hempty
    obtain ⟨ts, hts, hch⟩ := runPosts_chain es st
    rw [hts, hempty, List.nil_append]
    exact hch
  · exact watchdog_rebinds

/-- C1 amended, exercised: three posts at t = 100, 105, 120 against a
500-answering API rebind at 100 and 120 only (105 is inside the window),
and the chain property holds; a watchdog failure at t = 105 still rebinds. -/
theorem c1_rebind_cooldown_amended_witness :
    List.Chain (fun a b => REBIND_COOLDOWN_SECONDS < b - a) stCooldown.lastRebind
      (runEvents stCooldown
        ([(envT100, "/game_event"), (⟨105, [some "127.0.0.1:9"], fun _ _ => some 500⟩, "/game_event"),
          (⟨120, [some "127.0.0.1:9"], fun _ _ => some 500⟩, "/game_event")].map
          fun e => VEvent.post e.1 e.2)).rebindTimes ∧
    ∃ l : List ℚ, (watchdog envT105 stCooldown).rebindTimes =
      stCooldown.rebindTimes ++ envT105.now :: l :=
  ⟨c1_rebind_cooldown_amended.1 stCooldown _ rfl,
   c1_rebind_cooldown_amended.2 envT105 stCooldown (by decide)⟩

/-! ## C5 -/

/-- `line or ""` is the identity on strings. -/
theorem orEmpty_eq (l : List Char) : orEmpty l = l := by
  cases l <;> rfl

/-- C5: every `send_screen` call attaches the current sequence counter to
the payload and increments the counter exactly once, whatever the network
outcome — success, error status, transport failure — and when no endpoint
is available the call sends nothing (silent no-op) yet the counter still
advances. -/
theorem c5_counter_increment (env : Env) (st : GSState) (ev : String)
    (l1 l2 : List Char) :
    (send_screen env st ev l1 l2).1.value = st.counter ∧
    (send_screen env st ev l1 l2).2.2.counter = st.counter + 1 ∧
    (truthyBase (get_current_base env st false).1 = false →
      (send_screen env st ev l1 l2).2.1 = none) := by
  refine ⟨rfl, ?_, ?_⟩
  · show (safe_post env st "/game_event").2.counter + 1 = st.counter + 1
    rw [(safe_post_state env st "/game_event").1]
  · intro hb
    show (safe_post env st "/game_event").1 = none
    rw [safe_post_def]
    simp only [safePostCore, hb, Bool.not_false, if_true]

/-- C5, exercised with no endpoint cached and no candidate files: the
payload carries counter 7, nothing is sent, and the counter becomes 8. -/
theorem c5_counter_increment_witness :
    (send_screen ⟨100, [], fun _ _ => none⟩ ⟨none, 0, 0, 7, []⟩ CPU_EVENT
      "CPU 4.20GHz".toList "CPU 37% 52C".toList).1.value = 7 ∧
    (send_screen ⟨100, [], fun _ _ => none⟩ ⟨none, 0, 0, 7, []⟩ CPU_EVENT
      "CPU 4.20GHz".toList "CPU 37% 52C".toList).2.2.counter = 8 ∧
    (send_screen ⟨100, [], fun _ _ => none⟩ ⟨none, 0, 0, 7, []⟩ CPU_EVENT
      "CPU 4.20GHz".toList "CPU 37% 52C".toList).2.1 = none := by
  obtain ⟨h1, h2, h3⟩ := c5_counter_increment ⟨100, [], fun _ _ => none⟩
    ⟨none, 0, 0, 7, []⟩ CPU_EVENT "CPU 4.20GHz".toList "CPU 37% 52C".toList
  exact ⟨h1, h2, h3 (by decide)⟩

/-! ## C9 -/

/-- C9: the transmitted lines are the first 18 characters of the inputs —
plain cropping, no ellipsis: a line of at least 18 characters (such as a
25-character line) is sent as exactly its first 18 characters, and a line
of at most 18 characters is sent unchanged. -/
theorem c9_truncation (env : Env) (st : GSState) (ev : String)
    (l1 l2 : List Char) :
    (send_screen env st ev l1 l2).1.l1 = l1.take 18 ∧
    (send_screen env st ev l1 l2).1.l2 = l2.take 18 ∧
    (18 ≤ l1.length → ((send_screen env st ev l1 l2).1.l1).length = 18) ∧
    (l2.length ≤ 18 → (send_screen env st ev l1 l2).1.l2 = l2) := by
  have e1 : (send_screen env st ev l1 l2).1.l1 = l1.take 18 := by
    show (orEmpty l1).take 18 = l1.take 18
    rw [orEmpty_eq]
  have e2 : (send_screen env st ev l1 l2).1.l2 = l2.take 18 := by
    show (orEmpty l2).take 18 = l2.take 18
    rw [orEmpty_eq]
  refine ⟨e1, e2, ?_, ?_⟩
  · intro hlen
    rw [e1, List.length_take]
    omega
  · intro hlen
    rw [e2, List.take_of_length_le hlen]

/-- C9, exercised: a 25-character line is transmitted as its first 18
characters, an 11-character line unchanged. -/
theorem c9_truncation_witness :
    (send_screen ⟨100, [], fun _ _ => none⟩ ⟨none, 0, 0, 0, []⟩ CPU_EVENT
      "ABCDEFGHIJKLMNOPQRSTUVWXY".toList "CPU 37% 52C".toList).1.l1 =
      "ABCDEFGHIJKLMNOPQR".toList ∧
    (send_screen ⟨100, [], fun _ _ => none⟩ ⟨none, 0, 0, 0, []⟩ CPU_EVENT
      "ABCDEFGHIJKLMNOPQRSTUVWXY".toList "CPU 37% 52C".toList).1.l2 =
      "CPU 37% 52C".toList := by
  obtain ⟨h1, h2, h3, h4⟩ := c9_truncation ⟨100, [], fun _ _ => none⟩
    ⟨none, 0, 0, 0, []⟩ CPU_EVENT "ABCDEFGHIJKLMNOPQRSTUVWXY".toList
    "CPU 37% 52C".toList
  refine ⟨?_, h4 (by decide)⟩
  rw [h1]
  decide

/-! ## C6 -/

/-- A state with address `http://a:1` cached, last file read at t = 0. -/
def stCacheA : GSState := ⟨some "http://a:1", 0, 0, 0, []⟩

/-- At t = 2.9 the candidate files have changed to address `b:2`. -/
def envT29 : Env := ⟨mkRat 29 10, [some "b:2"], fun _ _ => some 200⟩

/-- At t = 4.5 (1.6 s later), same files, API alive. -/
def envT45 : Env := ⟨mkRat 9 2, [some "b:2"], fun _ _ => some 200⟩

/-- C6 (counterexample): two unforced resolution calls only 1.6 s apart —
well inside the 3-second TTL of each other — with an address cached do
**not** both return the cached address: the window is measured from the
last file read (`_last_base_read`), not pairwise, so the second call
re-reads the changed candidate file and returns the new address. -/
theorem c6_endpoint_cache_cex :
    get_current_base envT29 stCacheA false = (some "http://a:1", stCacheA) ∧
    (get_current_base envT45 stCacheA false).1 = some "http://b:2" ∧
    envT45.now - envT29.now < 3 := by
  refine ⟨by decide, by decide, ?_⟩
  show (mkRat 9 2 : ℚ) - mkRat 29 10 < 3
  norm_num [Rat.mkRat_eq_div]

/-- C6 (amended): with an address cached, every unforced resolution call
within the cache TTL **of the last candidate-file read** returns the
cached address with the state untouched — in particular two such calls
return the identical address and never consult the files or the network,
whatever the files and the API do in between — while a forced call
re-reads the files and, when the newly discovered address is alive,
returns and caches it. -/
theorem c6_endpoint_cache_amended (st : GSState) (env1 env2 env3 : Env)
    (a : String) (hcb : st.currentBase = some a) (ha : a.isEmpty = false)
    (h1 : env1.now - st.lastBaseRead < 3)
    (h2 : env2.now - st.lastBaseRead < 3) :
    get_current_base env1 st false = (some a, st) ∧
    get_current_base env2 st false = (some a, st) ∧
    (∀ b, read_coreprops_address env3 = some b →
      is_gamesense_alive env3 b = true →
      get_current_base env3 st true =
        (some b, { st with lastBaseRead := env3.now, currentBase := some b })) := by
  have hcached : ∀ env : Env, env.now - st.lastBaseRead < 3 →
      get_current_base env st false = (some a, st) := by
    intro env henv
    have hcond : (!false && truthyBase st.currentBase &&
        decide (ratSub env.now st.lastBaseRead < 3)) = true := by
      rw [hcb]
      simp only [truthyBase, ha, Bool.not_false, Bool.true_and]
      rw [ratSub_eq]
      simp [henv]
    simp only [get_current_base, hcond, if_true]
    rw [hcb]
  refine ⟨hcached env1 h1, hcached env2 h2, ?_⟩
  intro b hb halive
  have hcond : ¬ ((!true && truthyBase st.currentBase &&
      decide (ratSub env3.now st.lastBaseRead < 3)) = true) := by simp
  simp only [get_current_base, if_neg hcond, hb, halive, if_true]

/-- C6 amended, exercised: unforced calls at t = 1 and t = 2 return the
cached address untouched even though the files now say `b:2`; a forced
call at t = 4.5 picks up the change. -/
theorem c6_endpoint_cache_amended_witness :
    get_current_base ⟨1, [some "b:2"], fun _ _ => some 200⟩ stCacheA false =
      (some "http://a:1", stCacheA) ∧
    get_current_base ⟨2, [some "b:2"], fun _ _ => some 200⟩ stCacheA false =
      (some "http://a:1", stCacheA) ∧
    get_current_base envT45 stCacheA true =
      (some "http://b:2",
       { stCacheA with lastBaseRead := envT45.now, currentBase := some "http://b:2" }) := by
  obtain ⟨w1, w2, w3⟩ := c6_endpoint_cache_amended stCacheA
    ⟨1, [some "b:2"], fun _ _ => some 200⟩
    ⟨2, [some "b:2"], fun _ _ => some 200⟩ envT45 "http://a:1" rfl (by decide)
    (by show (1 : ℚ) - 0 < 3; norm_num) (by show (2 : ℚ) - 0 < 3; norm_num)
  exact ⟨w1, w2, w3 "http://b:2" (by decide) (by decide)⟩

/-- C10, exercised at the guarded inputs: both-missing renders the fully
empty 18-character bar. -/
theorem c10_progress_bar_shape_witness :
    progress_bar none none =
      '[' :: (List.replicate 0 BAR_FILLED ++
              List.replicate (BAR_WIDTH - 0) BAR_EMPTY) ++ [']'] := by
  obtain ⟨k, hk, heq, hlen, himp⟩ := c10_progress_bar_shape none none
  rw [himp (Or.inl rfl)] at heq
  exact heq
